import Mathlib

/-!
Shallow embedding of the BenchExec tool-adapter modules
`benchexec/tools/any.py`, `benchexec/tools/ultimate_axivion.py` and
`benchexec/tools/smtinterpol.py`, together with theorems settling the
specification claims about them.

Conventions of the embedding:
* Python strings are Lean `String`s; the Python substring test
  `needle in hay` is `pyIn needle hay`, implemented over character lists.
* Python exceptions are modelled by an explicit error type `PyErr`;
  functions that can raise return `Except PyErr _`.
* Output lines are `List String` (BenchExec hands `determine_result` a
  list of captured lines; lines contain no interior newline).
* Subprocess invocations are modelled by passing the outcome of the
  invocation (`SubprocessOutcome`) as an explicit argument; the regex
  engine used by the value extractor is passed as an abstract per-line
  search function, since the adapters treat the compiled pattern as a
  black box applied once per line.
-/

/-- Python exception kinds raised (or raisable) by the embedded code. -/
inductive PyErr where
  | valueError
  | indexError
  | keyError
  | stopIteration
  | attributeError
  | osError
  | assertionError (msg : String)
  | unsupportedFeature (msg : String)
  deriving DecidableEq, Repr

/-- True exactly on the `UnsupportedFeatureException` constructor. -/
def PyErr.isUnsupportedFeature : PyErr → Bool
  | .unsupportedFeature _ => true
  | _ => false

/-- `chPrefix n h` : the character list `n` is a prefix of `h`. -/
def chPrefix : List Char → List Char → Bool
  | [], _ => true
  | _ :: _, [] => false
  | a :: asx, b :: bs => a == b && chPrefix asx bs

/-- `chFind n h` : the character list `n` occurs contiguously in `h`
(Python substring containment; the empty needle is always contained). -/
def chFind (n : List Char) : List Char → Bool
  | [] => n.isEmpty
  | c :: rest => chPrefix n (c :: rest) || chFind n rest

/-- Python `needle in hay` on strings. -/
def pyIn (needle hay : String) : Bool := chFind needle.toList hay.toList

/-- Remainder of the haystack after the first occurrence of `n`, if any. -/
def chFindAfter (n : List Char) : List Char → Option (List Char)
  | [] => if n.isEmpty then some [] else none
  | c :: rest =>
    if chPrefix n (c :: rest) then some ((c :: rest).drop n.length)
    else chFindAfter n rest

/-- Characters stripped by Python `int()` / `str.strip()` (ASCII whitespace). -/
def pyWS (c : Char) : Bool :=
  c == ' ' || c == '\t' || c == '\n' || c == '\x0d' || c == '\x0b' || c == '\x0c'

/-- Strip leading and trailing whitespace from a character list. -/
def stripWS (cs : List Char) : List Char :=
  ((cs.dropWhile pyWS).reverse.dropWhile pyWS).reverse

/-- Digit accumulation for Python `int()`: underscores allowed only
between digits. -/
def digitsCore (acc : Nat) : List Char → Option Nat
  | [] => some acc
  | ['_'] => none
  | '_' :: c :: rest =>
    if c.isDigit then digitsCore (acc * 10 + (c.toNat - 48)) rest else none
  | c :: rest =>
    if c.isDigit then digitsCore (acc * 10 + (c.toNat - 48)) rest else none

/-- Parse a nonempty digit sequence (first char must be a digit). -/
def digitsStart : List Char → Option Nat
  | [] => none
  | c :: rest => if c.isDigit then digitsCore (c.toNat - 48) rest else none

/-- Python `int(s)` on a character list: strip whitespace, optional
sign, digits with underscore separators; `none` models a raised
`ValueError`. -/
def pyIntChars (s : List Char) : Option Int :=
  match stripWS s with
  | '+' :: rest => (digitsStart rest).map (fun n => (n : Int))
  | '-' :: rest => (digitsStart rest).map (fun n => -(n : Int))
  | rest => (digitsStart rest).map (fun n => (n : Int))

/-- Python `int(s)` on decimal strings. -/
def pyInt (s : String) : Option Int := pyIntChars s.toList

/-- Split a character list at every occurrence of the separator
character; Python `s.split(sep)` for a one-character separator
(`"".split(sep) == [""]`, separators at the ends yield empty parts). -/
def chSplitOn (sep : Char) : List Char → List (List Char)
  | [] => [[]]
  | c :: rest =>
    if c == sep then [] :: chSplitOn sep rest
    else
      match chSplitOn sep rest with
      | h :: t => (c :: h) :: t
      | [] => [[c]]

/-- Python `s.split(sep)` for strings, one-character separator. -/
def pySplit (s : String) (sep : Char) : List String :=
  (chSplitOn sep s.toList).map String.mk

/-- Python `s.strip()`, restricted to ASCII whitespace. -/
def pyStrip (s : String) : String := String.mk (stripWS s.toList)

/-- Fuelled worker for `chReplace`; the fuel is an upper bound on the
number of characters still to be consumed, so it never runs out when
started at the haystack length. -/
def chReplaceFuel (needle repl : List Char) : Nat → List Char → List Char
  | 0, cs => cs
  | _ + 1, [] => []
  | fuel + 1, c :: rest =>
    if !needle.isEmpty && chPrefix needle (c :: rest) then
      repl ++ chReplaceFuel needle repl fuel ((c :: rest).drop needle.length)
    else
      c :: chReplaceFuel needle repl fuel rest

/-- Python `s.replace(needle, repl)` for a nonempty needle: replace all
non-overlapping occurrences left to right. -/
def pyReplace (s needle repl : String) : String :=
  String.mk (chReplaceFuel needle.toList repl.toList s.toList.length s.toList)

/-- Python `s.startswith(p)`. -/
def pyStartswith (s p : String) : Bool := chPrefix p.toList s.toList

/-- Python `s.splitlines()` restricted to `\n` separators: the empty
string gives no lines, and a trailing newline does not produce a final
empty line. -/
def pySplitlines (s : String) : List String :=
  match s.toList with
  | [] => []
  | cs =>
    let parts := chSplitOn '\x0a' cs
    (if parts.getLast? = some [] then parts.dropLast else parts).map String.mk

/-- Modelled from the spec: the module `benchexec/result.py` is not among
the given sources; section 6 of the spec fixes the closed Verdict
taxonomy (`TRUE_PROP`, `FALSE_PROP`, `FALSE_DEREF`, `FALSE_FREE`,
`FALSE_MEMTRACK`, `UNKNOWN`, `DONE`, plus `FALSE_TERMINATION`), realised
as the distinct constant strings BenchExec uses. -/
def RESULT_TRUE_PROP : String := "true"

/-- Modelled from the spec: generic violation verdict. -/
def RESULT_FALSE_PROP : String := "false"

/-- Modelled from the spec: null-dereference violation verdict. -/
def RESULT_FALSE_DEREF : String := "false(valid-deref)"

/-- Modelled from the spec: invalid-free violation verdict. -/
def RESULT_FALSE_FREE : String := "false(valid-free)"

/-- Modelled from the spec: memory-leak violation verdict. -/
def RESULT_FALSE_MEMTRACK : String := "false(valid-memtrack)"

/-- Modelled from the spec: inconclusive verdict. -/
def RESULT_UNKNOWN : String := "unknown"

/-- Modelled from the spec: termination-violation verdict. -/
def RESULT_FALSE_TERMINATION : String := "false(termination)"

/-- Modelled from the spec: completed-without-pass/fail verdict. -/
def RESULT_DONE : String := "done"

/-- The part of a BaseTool2 run visible to `any.py`'s `determine_result`:
the captured output lines, the timeout flag, and the terminating signal
of the exit code (`0` models Python `None` / no signal). -/
structure Run where
  output : List String
  was_timeout : Bool
  signal : Int
  deriving Repr

namespace AnyTool

/-- `benchexec/tools/any.py`, `Tool.cmdline`:
`[executable] + options + [*task.input_files]`. -/
def cmdline (executable : String) (options input_files : List String) :
    List String :=
  executable :: (options ++ input_files)

/-- `benchexec/tools/any.py`, `Tool.determine_result`, translated
branch-for-branch.  `output[-1:][0]` on a nonempty list is its last
element, hence the match on `getLast?`. -/
def determine_result (run : Run) : String :=
  match run.output.getLast? with
  | none =>
    if run.was_timeout && (run.signal == 0) then "Timeout"
    else if run.was_timeout then "Timeout by " ++ toString run.signal
    else if !(run.signal == 0) then "Terminated by " ++ toString run.signal
    else RESULT_UNKNOWN
  | some last_line =>
    if ["YES", "TRUE", "Termination successfully shown!"].any
        (fun s => pyIn s last_line) then
      RESULT_TRUE_PROP
    else if ["FALSE", "NO"].any (fun s => pyIn s last_line) then
      RESULT_FALSE_TERMINATION
    else last_line

end AnyTool

example : AnyTool.determine_result ⟨["TRUE"], true, 0⟩ = "true" := rfl
example : AnyTool.determine_result ⟨[], true, 0⟩ = "Timeout" := rfl
example : AnyTool.determine_result ⟨[], true, 9⟩ = "Timeout by 9" := rfl
example : AnyTool.determine_result ⟨[], false, 9⟩ = "Terminated by 9" := rfl
example : AnyTool.determine_result ⟨[], false, 0⟩ = "unknown" := rfl
example :
    AnyTool.determine_result ⟨["a", "Termination successfully shown! TRUE"], false, 0⟩
      = "true" := rfl
example : AnyTool.determine_result ⟨["FALSE(unreach-call)"], false, 0⟩
      = "false(termination)" := rfl
example : AnyTool.determine_result ⟨["hello world"], false, 0⟩
      = "hello world" := rfl
namespace UltimateAxivion

/-- `ultimate_axivion.py`: `re.match` of
`error:.*possibly released by call to.*is a stack object` against a
line (anchored at the start).  The regex matches iff the line starts
with `error:` and the remainder contains the two fixed substrings in
order; using the first occurrence of the middle substring is equivalent
to the existential reading. -/
def matchesOtherErrors (line : String) : Bool :=
  let cs := line.toList
  if chPrefix "error:".toList cs then
    match chFindAfter "possibly released by call to".toList (cs.drop 6) with
    | some rest => chFind "is a stack object".toList rest
    | none => false
  else false

/-- `is_valid_deref = any(["LTL(G valid-deref)" in prp for prp in output])`. -/
def is_valid_deref (output : List String) : Bool :=
  output.any (fun prp => pyIn "LTL(G valid-deref)" prp)

/-- `is_valid_free = any(["LTL(G valid-free)" in prp for prp in output])`. -/
def is_valid_free (output : List String) : Bool :=
  output.any (fun prp => pyIn "LTL(G valid-free)" prp)

/-- `is_valid_memtrack = any(["LTL(G valid-memtrack)" in prp for prp in output])`. -/
def is_valid_memtrack (output : List String) : Bool :=
  output.any (fun prp => pyIn "LTL(G valid-memtrack)" prp)

/-- `is_valid_memcleanup = any(["LTL(G valid-memcleanup)" in prp for prp in output])`. -/
def is_valid_memcleanup (output : List String) : Bool :=
  output.any (fun prp => pyIn "LTL(G valid-memcleanup)" prp)

/-- The property-gated pattern checks applied to one line of output, in
the priority order of the source loop body (deref, free, memtrack, then
the ungated `re_other_errors` rule); `none` means the line triggers no
family. -/
def familyLine (dvd dvf dvm : Bool) (line : String) : Option String :=
  if dvd && (pyIn "error: Pointer may be NULL at dereference" line
      || pyIn "error: Pointer is NULL at dereference" line) then
    some RESULT_FALSE_DEREF
  else if dvf && (pyIn "error: Dynamic memory released here possibly already released earlier" line
      || pyIn "error: Dynamic memory possibly used after it was previously released" line) then
    some RESULT_FALSE_FREE
  else if dvm && pyIn "error: Call allocates possibly leaking memory" line then
    some RESULT_FALSE_MEMTRACK
  else if matchesOtherErrors line then
    some RESULT_FALSE_PROP
  else none

/-- Guard of the diagnostic-counter rule: the current line announces a
compiler-message count and the following line (`__try_get(output, idx+1)`,
i.e. the head of the remaining lines) is truthy (non-`None`, nonempty)
and announces an error count. -/
def counterGuard (line : String) (nxt : Option String) : Bool :=
  match nxt with
  | some n =>
    pyIn "Number of compiler messages:" line
      && (!(n == "") && pyIn "Number of errors:" n)
  | none => false

/-- Body of the `for idx, line in enumerate(output)` loop of
`determine_result`: on each line the counter rule is tried first, then
the gated families; `ok none` means the loop fell through.  The
`int(next.split(":")[1])` call can raise `ValueError` (unparseable
count) and, were the guard reachable without a colon, `IndexError`. -/
def lineScan (dvd dvf dvm : Bool) : List String → Except PyErr (Option String)
  | [] => .ok none
  | line :: rest =>
    match rest.head? with
    | some nxt =>
      if counterGuard line (some nxt) then
        match (chSplitOn ':' nxt.toList).get? 1 with
        | some seg =>
          match pyIntChars seg with
          | some n => .ok (some ("cafeCC errors: " ++ toString n))
          | none => .error .valueError
        | none => .error .indexError
      else
        match familyLine dvd dvf dvm line with
        | some v => .ok (some v)
        | none => lineScan dvd dvf dvm rest
    | none =>
      match familyLine dvd dvf dvm line with
      | some v => .ok (some v)
      | none => lineScan dvd dvf dvm rest

/-- `ultimate_axivion.py`, `Tool.determine_result(returncode,
returnsignal, output, isTimeout)`, translated branch-for-branch. -/
def determine_result (returncode returnsignal : Int) (output : List String)
    (isTimeout : Bool) : Except PyErr String :=
  if isTimeout && (returnsignal == 0) then
    .ok ("Timeout(" ++ toString returncode ++ ")")
  else if isTimeout then
    .ok ("Timeout(" ++ toString returncode ++ ") by " ++ toString returnsignal)
  else if !(returnsignal == 0) then
    .ok ("Terminated(" ++ toString returncode ++ ") by " ++ toString returnsignal)
  else
    match lineScan (is_valid_deref output) (is_valid_free output)
        (is_valid_memtrack output) output with
    | .error e => .error e
    | .ok (some v) => .ok v
    | .ok none =>
      if is_valid_memcleanup output then .ok RESULT_UNKNOWN
      else .ok RESULT_TRUE_PROP

/-- `ultimate_axivion.py`, `Tool.cmdline`.  The name of the generated
temporary wrapper script is an effect of the environment and is passed
in as `scriptName`; the script body, its `chmod`, and the temporary
directory are I/O effects that do not influence the returned argument
vector `[mini_script_file.name] + options + tasks (+ [propertyfile])`.
A `propertyfile` that is Python-falsy (`None` or the empty string) is
not appended. -/
def cmdline (scriptName : String) (options tasks : List String)
    (propertyfile : Option String) : Except PyErr (List String) :=
  if tasks.length = 1 then
    let call := scriptName :: (options ++ tasks)
    match propertyfile with
    | some p => if p = "" then .ok call else .ok (call ++ [p])
    | none => .ok call
  else
    .error (.unsupportedFeature
      ("Ultimate Axivion does not support " ++ toString tasks.length
        ++ " input files."))

end UltimateAxivion

example :
    UltimateAxivion.determine_result 2 0 ["anything", "TRUE"] true
      = .ok "Timeout(2)" := rfl
example :
    UltimateAxivion.determine_result 2 9 ["anything"] true
      = .ok "Timeout(2) by 9" := rfl
example :
    UltimateAxivion.determine_result 1 15 ["anything"] false
      = .ok "Terminated(1) by 15" := rfl
example :
    UltimateAxivion.determine_result 0 0 ["result: unknown"] false
      = .ok "true" := rfl
example :
    UltimateAxivion.determine_result 0 0
      ["LTL(G valid-memcleanup)", "all fine"] false = .ok "unknown" := rfl
example :
    UltimateAxivion.determine_result 0 0
      ["LTL(G valid-deref)", "x error: Pointer is NULL at dereference y"] false
      = .ok "false(valid-deref)" := rfl
example :
    UltimateAxivion.determine_result 0 0
      ["error: Pointer is NULL at dereference"] false
      = .ok "true" := rfl
example :
    UltimateAxivion.determine_result 0 0
      ["Number of compiler messages: 5", "Number of errors: 3"] false
      = .ok "cafeCC errors: 3" := rfl
example :
    UltimateAxivion.determine_result 0 0
      ["Number of compiler messages: 5", "Number of errors: "] false
      = .error .valueError := rfl
example :
    UltimateAxivion.determine_result 0 0
      ["error: foo possibly released by call to bar is a stack object"] false
      = .ok "false" := rfl
example :
    UltimateAxivion.determine_result 0 0
      ["xerror: foo possibly released by call to bar is a stack object"] false
      = .ok "true" := rfl
example :
    UltimateAxivion.cmdline "/tmp/s" ["-o1"] ["f.c"] (some "p.prp")
      = .ok ["/tmp/s", "-o1", "f.c", "p.prp"] := rfl
example :
    UltimateAxivion.cmdline "/tmp/s" [] ["a.c", "b.c"] none
      = .error (.unsupportedFeature
          "Ultimate Axivion does not support 2 input files.") := rfl

/-- Outcome of a subprocess invocation, passed in explicitly: either the
launch itself failed (Python `OSError` from `Popen`/`run`), or the
process completed with an exit code and captured stdout/stderr text. -/
inductive SubprocessOutcome where
  | launchFailure
  | completed (returncode : Int) (stdout stderr : String)
  deriving Repr

namespace UltimateAxivion

/-- `ultimate_axivion.py`, `Tool._version_from_tool`: launch failure and
nonzero exit are caught, a warning is logged, and the empty string is
returned; otherwise the decoded stdout is stripped.  This function is
total — it never propagates an error. -/
def version_from_tool (outcome : SubprocessOutcome) : String :=
  match outcome with
  | .launchFailure => ""
  | .completed rc out _ => if !(rc == 0) then "" else pyStrip out

/-- `ultimate_axivion.py`, `Tool.version`: builds the Bauhaus version
string from the first probe, reads `ULTIMATE_JAVA` / `ULTIMATE_DIR`
(raising `KeyError` when unset), runs the second probe, and extracts the
group of `^This is Ultimate (.*)$` (multiline search = first line with
that prefix); a failed match makes `match.group(1)` raise
`AttributeError`. -/
def version (env_java env_dir : Option String)
    (axivionProbe ultimateProbe : SubprocessOutcome) : Except PyErr String :=
  let axivion_version_raw := version_from_tool axivionProbe
  let axivion_version_str :=
    String.intercalate "_"
      ((pySplit axivion_version_raw ',').map
        (fun i => pyReplace (pyReplace (pyReplace i "(" "") ")" "") " " ""))
  match env_java, env_dir with
  | some _, some _ =>
    let ult_version_raw := version_from_tool ultimateProbe
    match (pySplit ult_version_raw '\x0a').find?
        (fun l => pyStartswith l "This is Ultimate ") with
    | some l => .ok (axivion_version_str ++ "/" ++ String.mk (l.toList.drop 17))
    | none => .error .attributeError
  | _, _ => .error .keyError

end UltimateAxivion

namespace SMTInterpol

/-- `smtinterpol.py`, `Tool.cmdline`: a bare `assert len(tasks) <= 1`
(an `AssertionError`, not a typed `UnsupportedFeature`), then
`[executable, "-jar", "smtinterpol.jar"] + options + tasks`. -/
def cmdline (executable : String) (options tasks : List String) :
    Except PyErr (List String) :=
  if tasks.length ≤ 1 then
    .ok ([executable, "-jar", "smtinterpol.jar"] ++ options ++ tasks)
  else .error (.assertionError "only one inputfile supported")

/-- `smtinterpol.py`, `Tool.version`: `subprocess.run` propagates a
launch failure (it is not caught); a nonzero exit code is ignored; then
`next(line for line in stderr.splitlines() if line.startswith("SMTInterpol"))`
raises `StopIteration` when no line qualifies, else the line with
`SMTInterpol` removed is stripped and returned. -/
def version (probe : SubprocessOutcome) : Except PyErr String :=
  match probe with
  | .launchFailure => .error .osError
  | .completed _ _ stderr =>
    match (pySplitlines stderr).find? (fun l => pyStartswith l "SMTInterpol") with
    | some line => .ok (pyStrip (pyReplace line "SMTInterpol" ""))
    | none => .error .stopIteration

/-- The value-extraction descriptor after `json.loads`: either the JSON
text was malformed (the `JSONDecodeError` is re-raised as an
`AssertionError`), or it is an object with optional `Type` and `Expr`
fields. -/
inductive Identifier where
  | malformed
  | parsed (ty : Option String) (expr : Option String)
  deriving Repr

/-- `smtinterpol.py`, `Tool._get_value_from_output_regex`: scan the
lines in the given order; `search1 line = some g` models a successful
`regex.search` with at least one capturing group, whose group 1 (`g`,
possibly Python `None`) is returned; `none` models no match or a
groupless match, and the scan continues.  Falling off the end returns
`None` after a debug log. -/
def get_value_from_output_regex (search1 : String → Option (Option String)) :
    List String → Option String
  | [] => none
  | line :: rest =>
    match search1 line with
    | some g => g
    | none => get_value_from_output_regex search1 rest

/-- `smtinterpol.py`, `Tool.get_value_from_output`: validate the
descriptor (malformed JSON → `AssertionError`; missing `Expr` →
`KeyError`; `Type` defaulting to `FirstMatch`, any other value →
`AssertionError`), then scan forward for `FirstMatch` or over
`reversed(output)` for `LastMatch`.  The compiled-regex behaviour is the
abstract argument `regexSearch expr : String → Option (Option String)`
applied once per line. -/
def get_value_from_output
    (regexSearch : String → String → Option (Option String))
    (ident : Identifier) (output : List String) :
    Except PyErr (Option String) :=
  match ident with
  | .malformed => .error (.assertionError "Invalid JSON")
  | .parsed ty expr? =>
    let mode := ty.getD "FirstMatch"
    match expr? with
    | none => .error .keyError
    | some expr =>
      if mode = "FirstMatch" then
        .ok (get_value_from_output_regex (regexSearch expr) output)
      else if mode = "LastMatch" then
        .ok (get_value_from_output_regex (regexSearch expr) output.reverse)
      else .error (.assertionError ("Unknown column mode " ++ mode))

end SMTInterpol

example : SMTInterpol.cmdline "java" ["-v"] ["t.smt2"]
    = .ok ["java", "-jar", "smtinterpol.jar", "-v", "t.smt2"] := rfl
example : SMTInterpol.cmdline "java" [] ["a", "b"]
    = .error (.assertionError "only one inputfile supported") := rfl
example : SMTInterpol.version (.completed 0 "" "junk\x0aSMTInterpol 2.5-g0123\x0a")
    = .ok "2.5-g0123" := rfl
example : SMTInterpol.version (.completed 0 "" "openjdk version 1.8")
    = .error .stopIteration := rfl
example : SMTInterpol.version .launchFailure = .error .osError := rfl
example :
    UltimateAxivion.version (some "j") (some "d")
      (.completed 0 "(7, 0, 0, 4283)" "") (.completed 0 "This is Ultimate 0.2.1" "")
      = .ok "7_0_0_4283/0.2.1" := rfl
example :
    UltimateAxivion.version (some "j") (some "d")
      (.completed 0 "(7, 0, 0, 4283)" "") .launchFailure
      = .error .attributeError := rfl
example :
    UltimateAxivion.version none (some "d")
      (.completed 0 "(7, 0, 0, 4283)" "") (.completed 0 "This is Ultimate 0.2.1" "")
      = .error .keyError := rfl
example : UltimateAxivion.version_from_tool (.completed 3 "x" "") = "" := rfl
example : UltimateAxivion.version_from_tool .launchFailure = "" := rfl
example : UltimateAxivion.version_from_tool (.completed 0 " v1 \x0a" "") = "v1" := rfl

example : pyInt " 2" = some 2 := rfl
example : pyInt " " = none := rfl
example : pyInt "" = none := rfl
example : pyInt "-13" = some (-13) := rfl
example : pyInt "1_0" = some 10 := rfl
example : pyInt "1__0" = none := rfl

/-!
## Theorems settling the claims
-/

/-- Claim C1 as stated is false: the pass-through adapter (`any.py`)
checks the timeout flag only when the output is empty.  A run with
`was_timeout = true` and output `["TRUE"]` is classified by content and
yields the positive verdict `"true"`, which is not any timeout verdict
(none of which lack the prefix `Timeout`). -/
theorem c1_counterexample :
    AnyTool.determine_result ⟨["TRUE"], true, 0⟩ = RESULT_TRUE_PROP ∧
    pyStartswith RESULT_TRUE_PROP "Timeout" = false ∧
    RESULT_TRUE_PROP ≠ "Timeout" :=
  ⟨rfl, rfl, by decide⟩

/-- Claim C1, amended: timeout dominates content for the static-analysis
adapter (`ultimate_axivion.py`), whose timeout verdict encodes the exit
code and, when nonzero, the terminating signal; the pass-through adapter
(`any.py`) returns its timeout verdicts only when the output is empty. -/
theorem c1_amended :
    (∀ (returncode returnsignal : Int) (output : List String),
      UltimateAxivion.determine_result returncode returnsignal output true
        = .ok (if returnsignal == 0 then "Timeout(" ++ toString returncode ++ ")"
               else "Timeout(" ++ toString returncode ++ ") by "
                 ++ toString returnsignal)) ∧
    (∀ signal : Int,
      AnyTool.determine_result ⟨[], true, signal⟩
        = if signal == 0 then "Timeout" else "Timeout by " ++ toString signal) := by
  constructor
  · intro rc sig output
    by_cases h : (sig == 0) = true
    · simp [UltimateAxivion.determine_result, h]
    · simp only [Bool.not_eq_true] at h
      simp [UltimateAxivion.determine_result, h]
  · intro sig
    by_cases h : (sig == 0) = true
    · simp [AnyTool.determine_result, h]
    · simp only [Bool.not_eq_true] at h
      simp [AnyTool.determine_result, h]

/-- Claim C2 is contradicted by the code: the static-analysis
classifier's diagnostic-counter branch computes
`int(next.split(":")[1])`, which raises `ValueError` when the text after
the first colon of the error-count line is not an integer.  On the
output `["Number of compiler messages: 1", "Number of errors: "]` (no
timeout, no signal) `determine_result` raises instead of returning a
Verdict, so classification is not total. -/
theorem c2_classifier_raises :
    UltimateAxivion.determine_result 0 0
      ["Number of compiler messages: 1", "Number of errors: "] false
      = .error PyErr.valueError := rfl

/-- Claim C5 as stated is false: `smtinterpol.py`'s `version` does
propagate an error on a probe whose output lacks the expected version
text — the generator in `next(...)` is exhausted and `StopIteration`
escapes, rather than a warning and an empty string. -/
theorem c5_counterexample :
    SMTInterpol.version (.completed 0 "" "openjdk version 1.8")
      = .error PyErr.stopIteration := rfl

/-- Claim C5, amended: only the probe-launch failure and the nonzero
probe exit are non-fatal (handled inside `_version_from_tool`, which
logs a warning and returns the empty string); probe output lacking the
expected version text makes `version` itself propagate an error
(`StopIteration` in the SMT adapter; `AttributeError` from
`match.group(1)` in the static-analysis adapter, e.g. whenever its
second probe fails to launch). -/
theorem c5_amended :
    (UltimateAxivion.version_from_tool .launchFailure = "") ∧
    (∀ (rc : Int) (out err : String), rc ≠ 0 →
      UltimateAxivion.version_from_tool (.completed rc out err) = "") ∧
    (∀ (rc : Int) (out err : String),
      (pySplitlines err).find? (fun l => pyStartswith l "SMTInterpol") = none →
      SMTInterpol.version (.completed rc out err) = .error .stopIteration) ∧
    (∀ (ej ed : String) (axivionProbe : SubprocessOutcome),
      UltimateAxivion.version (some ej) (some ed) axivionProbe .launchFailure
        = .error .attributeError) := by
  refine ⟨rfl, ?_, ?_, ?_⟩
  · intro rc out err h
    have hb : (rc == 0) = false := by simpa using h
    simp [UltimateAxivion.version_from_tool, hb]
  · intro rc out err h
    simp [SMTInterpol.version, h]
  · intro ej ed ax
    rfl

/-- Witness for the amended claim C5, at concrete probe outcomes. -/
theorem c5_witness :
    UltimateAxivion.version_from_tool (.completed 3 "x" "y") = "" ∧
    SMTInterpol.version (.completed 0 "" "openjdk version 1.8")
      = .error .stopIteration ∧
    UltimateAxivion.version (some "java") (some "/opt/ultimate")
      (.completed 0 "(7, 0, 0, 4283)" "") .launchFailure
      = .error .attributeError :=
  ⟨c5_amended.2.1 3 "x" "y" (by decide),
   c5_amended.2.2.1 0 "" "openjdk version 1.8" rfl,
   c5_amended.2.2.2 "java" "/opt/ultimate" _⟩

/-- Claim C6 as stated is false: the SMT adapter (`smtinterpol.py`) is a
single-file-only adapter, but on a two-file task its `cmdline` fails
with a bare `AssertionError` whose message names neither the adapter nor
the file count — not with the typed `UnsupportedFeature` error. -/
theorem c6_counterexample :
    SMTInterpol.cmdline "java" [] ["a.smt2", "b.smt2"]
      = .error (.assertionError "only one inputfile supported") ∧
    (PyErr.assertionError "only one inputfile supported").isUnsupportedFeature
      = false ∧
    pyIn "SMTInterpol" "only one inputfile supported" = false ∧
    pyIn "2" "only one inputfile supported" = false :=
  ⟨rfl, rfl, rfl, rfl⟩

/-- Claim C6, amended: on more than one input file the static-analysis
adapter's `cmdline` raises `UnsupportedFeatureException` naming the
adapter and the offending file count (and performs none of the
script-constructing effects of its single-file branch), while the SMT
adapter's `cmdline` fails with the untyped
`AssertionError("only one inputfile supported")`. -/
theorem c6_amended :
    (∀ (scriptName : String) (options tasks : List String) (pf : Option String),
      1 < tasks.length →
      UltimateAxivion.cmdline scriptName options tasks pf
        = .error (.unsupportedFeature
            ("Ultimate Axivion does not support " ++ toString tasks.length
              ++ " input files."))) ∧
    (∀ (executable : String) (options tasks : List String),
      1 < tasks.length →
      SMTInterpol.cmdline executable options tasks
        = .error (.assertionError "only one inputfile supported")) := by
  constructor
  · intro s o t pf h
    unfold UltimateAxivion.cmdline
    rw [if_neg (by omega)]
  · intro e o t h
    unfold SMTInterpol.cmdline
    rw [if_neg (by omega)]

/-- Witness for the amended claim C6, on a concrete two-file task. -/
theorem c6_witness :
    UltimateAxivion.cmdline "/tmp/script" [] ["a.c", "b.c"] none
      = .error (.unsupportedFeature
          "Ultimate Axivion does not support 2 input files.") ∧
    SMTInterpol.cmdline "java" [] ["a.smt2", "b.smt2"]
      = .error (.assertionError "only one inputfile supported") :=
  ⟨(c6_amended.1 "/tmp/script" [] ["a.c", "b.c"] none (by decide)).trans rfl,
   c6_amended.2 "java" [] ["a.smt2", "b.smt2"] (by decide)⟩

/-- A descriptor that fails validation in `get_value_from_output`:
malformed JSON, missing `Expr`, or a `Type` outside
`{FirstMatch, LastMatch}` (after the `FirstMatch` default). -/
def SMTInterpol.badDescriptor : SMTInterpol.Identifier → Bool
  | .malformed => true
  | .parsed _ none => true
  | .parsed ty (some _) =>
    let mode := ty.getD "FirstMatch"
    !(mode == "FirstMatch") && !(mode == "LastMatch")

/-- Claim C7 holds: for every descriptor that cannot be parsed, lacks
`Expr`, or has an unrecognized `Type`, `get_value_from_output` fails
with a descriptor-validation error without examining any output line —
its result is an error and is identical for every output sequence. -/
theorem c7_validation_precedes_scanning :
    ∀ (regexSearch : String → String → Option (Option String))
      (ident : SMTInterpol.Identifier),
      SMTInterpol.badDescriptor ident = true →
      ∀ (output1 output2 : List String),
        SMTInterpol.get_value_from_output regexSearch ident output1
          = SMTInterpol.get_value_from_output regexSearch ident output2 ∧
        ∃ e : PyErr,
          SMTInterpol.get_value_from_output regexSearch ident output1
            = .error e := by
  intro rs ident hbad out1 out2
  match ident with
  | .malformed => exact ⟨rfl, ⟨_, rfl⟩⟩
  | .parsed ty none => exact ⟨rfl, ⟨_, rfl⟩⟩
  | .parsed ty (some expr) =>
    simp only [SMTInterpol.badDescriptor, Bool.and_eq_true, Bool.not_eq_true',
      beq_eq_false_iff_ne, ne_eq] at hbad
    obtain ⟨h1, h2⟩ := hbad
    have e1 : SMTInterpol.get_value_from_output rs (.parsed ty (some expr)) out1
        = .error (.assertionError ("Unknown column mode " ++ ty.getD "FirstMatch")) := by
      simp only [SMTInterpol.get_value_from_output]
      rw [if_neg h1, if_neg h2]
    have e2 : SMTInterpol.get_value_from_output rs (.parsed ty (some expr)) out2
        = .error (.assertionError ("Unknown column mode " ++ ty.getD "FirstMatch")) := by
      simp only [SMTInterpol.get_value_from_output]
      rw [if_neg h1, if_neg h2]
    exact ⟨e1.trans e2.symm, ⟨_, e1⟩⟩

/-- Witness for claim C7: a malformed descriptor fails identically on
two different output sequences. -/
theorem c7_witness :
    SMTInterpol.get_value_from_output (fun _ _ => none) .malformed []
      = SMTInterpol.get_value_from_output (fun _ _ => none) .malformed ["x"] ∧
    ∃ e : PyErr,
      SMTInterpol.get_value_from_output (fun _ _ => none) .malformed []
        = .error e :=
  c7_validation_precedes_scanning (fun _ _ => none) .malformed rfl [] ["x"]

/-- Claim C8 holds: for every compiled pattern (abstracted as the
per-line search function `regexSearch expr`) and every output sequence,
`LastMatch` extraction equals `FirstMatch` extraction over the reversed
sequence — the code realises `LastMatch` literally as the forward scan
of `reversed(output)`. -/
theorem c8_duality :
    ∀ (regexSearch : String → String → Option (Option String))
      (expr : String) (output : List String),
      SMTInterpol.get_value_from_output regexSearch
          (.parsed (some "LastMatch") (some expr)) output
        = SMTInterpol.get_value_from_output regexSearch
          (.parsed (some "FirstMatch") (some expr)) output.reverse := by
  intro rs expr output
  rfl

/-- Claim C10 holds: on an empty output sequence the pass-through
adapter returns `RESULT_UNKNOWN` when neither the timeout flag nor a
signal is present, `"Timeout"` for a timeout without signal,
`"Timeout by s"` for a timeout with signal `s`, and `"Terminated by s"`
for a signal without timeout. -/
theorem c10_empty_output :
    (AnyTool.determine_result ⟨[], false, 0⟩ = RESULT_UNKNOWN) ∧
    (AnyTool.determine_result ⟨[], true, 0⟩ = "Timeout") ∧
    (∀ signal : Int, signal ≠ 0 →
      AnyTool.determine_result ⟨[], true, signal⟩
        = "Timeout by " ++ toString signal) ∧
    (∀ signal : Int, signal ≠ 0 →
      AnyTool.determine_result ⟨[], false, signal⟩
        = "Terminated by " ++ toString signal) := by
  refine ⟨rfl, rfl, ?_, ?_⟩
  · intro s h
    have hb : (s == 0) = false := by simpa using h
    simp [AnyTool.determine_result, hb]
  · intro s h
    have hb : (s == 0) = false := by simpa using h
    simp [AnyTool.determine_result, hb]

/-- Witness for claim C10, at signal 9. -/
theorem c10_witness :
    AnyTool.determine_result ⟨[], true, 9⟩ = "Timeout by 9" ∧
    AnyTool.determine_result ⟨[], false, 9⟩ = "Terminated by 9" :=
  ⟨(c10_empty_output.2.2.1 9 (by decide)).trans rfl,
   (c10_empty_output.2.2.2 9 (by decide)).trans rfl⟩

/-- The first character of any counter diagnostic is `c`. -/
theorem cafe_head (s : String) :
    ("cafeCC errors: " ++ s).data.head? = some 'c' := rfl

/-- A counter diagnostic `cafeCC errors: …` differs from any string not
beginning with `c`. -/
theorem cafe_ne (s t : String) (h : t.data.head? ≠ some 'c') :
    "cafeCC errors: " ++ s ≠ t :=
  fun he => h (he ▸ cafe_head s)

/-- Every verdict produced by the per-line family checks comes from an
enabled family (or the ungated stack-object rule). -/
theorem familyLine_cases (dvd dvf dvm : Bool) (line : String) (v : String)
    (h : UltimateAxivion.familyLine dvd dvf dvm line = some v) :
    (dvd = true ∧ v = RESULT_FALSE_DEREF) ∨
    (dvf = true ∧ v = RESULT_FALSE_FREE) ∨
    (dvm = true ∧ v = RESULT_FALSE_MEMTRACK) ∨
    v = RESULT_FALSE_PROP := by
  unfold UltimateAxivion.familyLine at h
  split_ifs at h with h1 h2 h3 h4
  · exact Or.inl ⟨(Bool.and_eq_true _ _ ▸ h1).1, (Option.some.injEq _ _ ▸ h).symm⟩
  · exact Or.inr (Or.inl ⟨(Bool.and_eq_true _ _ ▸ h2).1,
      (Option.some.injEq _ _ ▸ h).symm⟩)
  · exact Or.inr (Or.inr (Or.inl ⟨(Bool.and_eq_true _ _ ▸ h3).1,
      (Option.some.injEq _ _ ▸ h).symm⟩))
  · exact Or.inr (Or.inr (Or.inr (Option.some.injEq _ _ ▸ h).symm))

/-- Characterisation of every verdict the scanning loop can return: a
counter diagnostic, or a family verdict whose governing gate was set, or
the ungated generic violation. -/
theorem lineScan_cases (dvd dvf dvm : Bool) :
    ∀ (lines : List String) (v : String),
      UltimateAxivion.lineScan dvd dvf dvm lines = .ok (some v) →
      (∃ n : Int, v = "cafeCC errors: " ++ toString n) ∨
      (dvd = true ∧ v = RESULT_FALSE_DEREF) ∨
      (dvf = true ∧ v = RESULT_FALSE_FREE) ∨
      (dvm = true ∧ v = RESULT_FALSE_MEMTRACK) ∨
      v = RESULT_FALSE_PROP := by
  intro lines
  induction lines with
  | nil => intro v h; simp [UltimateAxivion.lineScan] at h
  | cons line rest ih =>
    intro v h
    cases rest with
    | nil =>
      simp only [UltimateAxivion.lineScan, List.head?] at h
      cases hf : UltimateAxivion.familyLine dvd dvf dvm line with
      | none => rw [hf] at h; simp [UltimateAxivion.lineScan] at h
      | some w =>
        rw [hf] at h
        simp only [Except.ok.injEq, Option.some.injEq] at h
        exact Or.inr (familyLine_cases dvd dvf dvm line v (h ▸ hf))
    | cons b t =>
      simp only [UltimateAxivion.lineScan, List.head?] at h
      by_cases hg : UltimateAxivion.counterGuard line (some b) = true
      · rw [if_pos hg] at h
        split at h
        next seg hseg =>
          split at h
          next n hn =>
            simp only [Except.ok.injEq, Option.some.injEq] at h
            exact Or.inl ⟨n, h.symm⟩
          next hn => simp at h
        next hseg => simp at h
      · rw [if_neg hg] at h
        cases hf : UltimateAxivion.familyLine dvd dvf dvm line with
        | none => rw [hf] at h; exact ih v h
        | some w =>
          rw [hf] at h
          simp only [Except.ok.injEq, Option.some.injEq] at h
          exact Or.inr (familyLine_cases dvd dvf dvm line v (h ▸ hf))

/-- With no timeout and no signal, `determine_result` reduces to the
line scan followed by the memcleanup fallback. -/
theorem determine_result_no_signal (rc : Int) (output : List String) :
    UltimateAxivion.determine_result rc 0 output false
      = match UltimateAxivion.lineScan (UltimateAxivion.is_valid_deref output)
          (UltimateAxivion.is_valid_free output)
          (UltimateAxivion.is_valid_memtrack output) output with
        | .error e => .error e
        | .ok (some v) => .ok v
        | .ok none =>
          if UltimateAxivion.is_valid_memcleanup output then .ok RESULT_UNKNOWN
          else .ok RESULT_TRUE_PROP := by
  simp [UltimateAxivion.determine_result]

/-- Every successful classification of a run with no timeout and no
signal is the fallback verdict, a counter diagnostic, or a family
verdict whose governing property gate was set. -/
theorem determine_ok_cases (rc : Int) (output : List String) (v : String)
    (h : UltimateAxivion.determine_result rc 0 output false = .ok v) :
    v = RESULT_UNKNOWN ∨ v = RESULT_TRUE_PROP ∨
    (∃ n : Int, v = "cafeCC errors: " ++ toString n) ∨
    (UltimateAxivion.is_valid_deref output = true ∧ v = RESULT_FALSE_DEREF) ∨
    (UltimateAxivion.is_valid_free output = true ∧ v = RESULT_FALSE_FREE) ∨
    (UltimateAxivion.is_valid_memtrack output = true ∧ v = RESULT_FALSE_MEMTRACK) ∨
    v = RESULT_FALSE_PROP := by
  rw [determine_result_no_signal] at h
  cases hs : UltimateAxivion.lineScan (UltimateAxivion.is_valid_deref output)
      (UltimateAxivion.is_valid_free output)
      (UltimateAxivion.is_valid_memtrack output) output with
  | error e => rw [hs] at h; simp at h
  | ok o =>
    rw [hs] at h
    cases o with
    | none =>
      by_cases hc : UltimateAxivion.is_valid_memcleanup output = true
      · rw [if_pos hc] at h
        simp only [Except.ok.injEq] at h
        exact Or.inl h.symm
      · rw [if_neg hc] at h
        simp only [Except.ok.injEq] at h
        exact Or.inr (Or.inl h.symm)
    | some w =>
      simp only [Except.ok.injEq] at h
      subst h
      rcases lineScan_cases _ _ _ output w hs with hc | hd | hf | hm | hp
      · exact Or.inr (Or.inr (Or.inl hc))
      · exact Or.inr (Or.inr (Or.inr (Or.inl hd)))
      · exact Or.inr (Or.inr (Or.inr (Or.inr (Or.inl hf))))
      · exact Or.inr (Or.inr (Or.inr (Or.inr (Or.inr (Or.inl hm)))))
      · exact Or.inr (Or.inr (Or.inr (Or.inr (Or.inr (Or.inr hp)))))

/-- Claim C3 holds: in the static-analysis classifier, with no timeout
and no signal, a violation verdict of a gated pattern family is returned
only if some output line declares that family's governing property
(`FALSE_DEREF` needs a `LTL(G valid-deref)` declaration, `FALSE_FREE`
needs `LTL(G valid-free)`, `FALSE_MEMTRACK` needs
`LTL(G valid-memtrack)`). -/
theorem c3_property_gating :
    ∀ (returncode : Int) (output : List String),
      (UltimateAxivion.determine_result returncode 0 output false
          = .ok RESULT_FALSE_DEREF →
        ∃ line ∈ output, pyIn "LTL(G valid-deref)" line = true) ∧
      (UltimateAxivion.determine_result returncode 0 output false
          = .ok RESULT_FALSE_FREE →
        ∃ line ∈ output, pyIn "LTL(G valid-free)" line = true) ∧
      (UltimateAxivion.determine_result returncode 0 output false
          = .ok RESULT_FALSE_MEMTRACK →
        ∃ line ∈ output, pyIn "LTL(G valid-memtrack)" line = true) := by
  intro rc output
  refine ⟨?_, ?_, ?_⟩
  · intro h
    rcases determine_ok_cases rc output _ h with hv | hv | ⟨n, hn⟩ | ⟨hd, _⟩ |
      ⟨_, hv⟩ | ⟨_, hv⟩ | hv
    · exact absurd hv (by decide)
    · exact absurd hv (by decide)
    · exact absurd hn.symm (cafe_ne _ _ (by decide))
    · exact List.any_eq_true.1 hd
    · exact absurd hv (by decide)
    · exact absurd hv (by decide)
    · exact absurd hv (by decide)
  · intro h
    rcases determine_ok_cases rc output _ h with hv | hv | ⟨n, hn⟩ | ⟨_, hv⟩ |
      ⟨hd, _⟩ | ⟨_, hv⟩ | hv
    · exact absurd hv (by decide)
    · exact absurd hv (by decide)
    · exact absurd hn.symm (cafe_ne _ _ (by decide))
    · exact absurd hv (by decide)
    · exact List.any_eq_true.1 hd
    · exact absurd hv (by decide)
    · exact absurd hv (by decide)
  · intro h
    rcases determine_ok_cases rc output _ h with hv | hv | ⟨n, hn⟩ | ⟨_, hv⟩ |
      ⟨_, hv⟩ | ⟨hd, _⟩ | hv
    · exact absurd hv (by decide)
    · exact absurd hv (by decide)
    · exact absurd hn.symm (cafe_ne _ _ (by decide))
    · exact absurd hv (by decide)
    · exact absurd hv (by decide)
    · exact List.any_eq_true.1 hd
    · exact absurd hv (by decide)

/-- Witness for claim C3: a run whose output declares the deref property
and contains the deref error pattern. -/
theorem c3_witness :
    ∃ line ∈ ["LTL(G valid-deref)", "error: Pointer is NULL at dereference"],
      pyIn "LTL(G valid-deref)" line = true :=
  (c3_property_gating 0
    ["LTL(G valid-deref)", "error: Pointer is NULL at dereference"]).1 rfl

/-- Whether some line of the list, together with its successor
(`__try_get` lookahead), satisfies the diagnostic-counter guard. -/
def UltimateAxivion.anyCounterGuard : List String → Bool
  | [] => false
  | line :: rest => UltimateAxivion.counterGuard line rest.head? || anyCounterGuard rest

/-- If no line triggers an enabled family (or the stack-object rule) and
no adjacent pair satisfies the counter guard, the scanning loop falls
through. -/
theorem lineScan_falls_through (dvd dvf dvm : Bool) :
    ∀ lines : List String,
      (∀ l ∈ lines, UltimateAxivion.familyLine dvd dvf dvm l = none) →
      UltimateAxivion.anyCounterGuard lines = false →
      UltimateAxivion.lineScan dvd dvf dvm lines = .ok none := by
  intro lines
  induction lines with
  | nil => intro _ _; rfl
  | cons line rest ih =>
    intro h1 h2
    simp only [UltimateAxivion.anyCounterGuard, Bool.or_eq_false_iff] at h2
    obtain ⟨hg, h2'⟩ := h2
    have hfam : UltimateAxivion.familyLine dvd dvf dvm line = none :=
      h1 line (List.mem_cons_self line rest)
    have h1' : ∀ l ∈ rest, UltimateAxivion.familyLine dvd dvf dvm l = none :=
      fun l hl => h1 l (List.mem_cons_of_mem line hl)
    cases rest with
    | nil =>
      simp only [UltimateAxivion.lineScan, List.head?]
      rw [hfam]
    | cons b t =>
      simp only [UltimateAxivion.lineScan, List.head?]
      rw [if_neg (by simpa using hg), hfam]
      exact ih h1' h2'

/-- Claim C4 holds: for a run with no timeout and no signal in which no
line triggers an enabled pattern family (nor the stack-object rule) and
no adjacent line pair satisfies the diagnostic-counter guard, the
classifier returns `UNKNOWN` when the missing-cleanup property
`LTL(G valid-memcleanup)` was declared and the positive verdict
`TRUE_PROP` otherwise. -/
theorem c4_fallback :
    ∀ (returncode : Int) (output : List String),
      (∀ l ∈ output,
        UltimateAxivion.familyLine (UltimateAxivion.is_valid_deref output)
          (UltimateAxivion.is_valid_free output)
          (UltimateAxivion.is_valid_memtrack output) l = none) →
      UltimateAxivion.anyCounterGuard output = false →
      UltimateAxivion.determine_result returncode 0 output false
        = .ok (if UltimateAxivion.is_valid_memcleanup output then RESULT_UNKNOWN
               else RESULT_TRUE_PROP) := by
  intro rc output h1 h2
  rw [determine_result_no_signal,
    lineScan_falls_through _ _ _ output h1 h2]
  by_cases hc : UltimateAxivion.is_valid_memcleanup output = true
  · rw [if_pos hc, if_pos hc]
  · rw [if_neg hc, if_neg hc]

/-- Witness for claim C4: the spec's scenario `["result: unknown"]` with
no timeout, no signal and no declared properties yields `TRUE_PROP`. -/
theorem c4_witness :
    UltimateAxivion.determine_result 0 0 ["result: unknown"] false
      = .ok RESULT_TRUE_PROP :=
  (c4_fallback 0 ["result: unknown"] (by decide) rfl).trans rfl

/-- Claim C9 as stated is false: the diagnostic-counter rule does not
override pattern matching on earlier lines.  With the deref property
declared, a deref error line followed by a compiler-message /
nonzero-error-count pair yields `FALSE_DEREF`, not the counter
diagnostic. -/
theorem c9_counterexample :
    UltimateAxivion.determine_result 0 0
      ["LTL(G valid-deref)", "error: Pointer is NULL at dereference",
       "Number of compiler messages: 1", "Number of errors: 2"] false
      = .ok RESULT_FALSE_DEREF ∧
    RESULT_FALSE_DEREF ≠ "cafeCC errors: 2" :=
  ⟨rfl, by decide⟩

/-- Prefix lines that trigger neither an enabled family nor the counter
guard are skipped by the scanning loop; the guard of the last prefix
line is evaluated against the first line after the prefix. -/
theorem lineScan_skip (dvd dvf dvm : Bool) :
    ∀ (pre : List String) (l1 : String) (tail : List String),
      (∀ l ∈ pre, UltimateAxivion.familyLine dvd dvf dvm l = none) →
      UltimateAxivion.anyCounterGuard (pre ++ [l1]) = false →
      UltimateAxivion.lineScan dvd dvf dvm (pre ++ l1 :: tail)
        = UltimateAxivion.lineScan dvd dvf dvm (l1 :: tail) := by
  intro pre
  induction pre with
  | nil => intro l1 tail _ _; rfl
  | cons p pre' ih =>
    intro l1 tail h1 h2
    simp only [List.cons_append, UltimateAxivion.anyCounterGuard,
      Bool.or_eq_false_iff] at h2
    obtain ⟨hg, h2'⟩ := h2
    have hfam : UltimateAxivion.familyLine dvd dvf dvm p = none :=
      h1 p (List.mem_cons_self p pre')
    have h1' : ∀ l ∈ pre', UltimateAxivion.familyLine dvd dvf dvm l = none :=
      fun l hl => h1 l (List.mem_cons_of_mem p hl)
    cases pre' with
    | nil =>
      have hg' : UltimateAxivion.counterGuard p (some l1) = false := by
        simpa using hg
      show UltimateAxivion.lineScan dvd dvf dvm (p :: l1 :: tail)
          = UltimateAxivion.lineScan dvd dvf dvm (l1 :: tail)
      simp only [UltimateAxivion.lineScan, List.head?]
      rw [if_neg (by simp [hg']), hfam]
    | cons q pre'' =>
      have hg' : UltimateAxivion.counterGuard p (some q) = false := by
        simpa using hg
      have step :
          UltimateAxivion.lineScan dvd dvf dvm
              (p :: (q :: (pre'' ++ l1 :: tail)))
            = UltimateAxivion.lineScan dvd dvf dvm (q :: (pre'' ++ l1 :: tail)) := by
        simp only [UltimateAxivion.lineScan, List.head?]
        rw [if_neg (by simp [hg']), hfam]
      show UltimateAxivion.lineScan dvd dvf dvm (p :: (q :: (pre'' ++ l1 :: tail)))
          = UltimateAxivion.lineScan dvd dvf dvm (l1 :: tail)
      rw [step]
      exact ih l1 tail h1' h2'

/-- Claim C9, amended: the counter rule participates in the same ordered
per-line scan as the pattern families and is checked first only within
its own line; it yields the `cafeCC errors: N` diagnostic exactly when
no earlier line triggered an enabled family (or the stack-object rule)
and no earlier adjacent pair satisfied the counter guard.  (The error
count need not be nonzero, only parseable.) -/
theorem c9_amended :
    ∀ (returncode : Int) (pre : List String) (l1 l2 : String)
      (rest : List String) (n : Int),
      (∀ l ∈ pre,
        UltimateAxivion.familyLine
          (UltimateAxivion.is_valid_deref (pre ++ l1 :: l2 :: rest))
          (UltimateAxivion.is_valid_free (pre ++ l1 :: l2 :: rest))
          (UltimateAxivion.is_valid_memtrack (pre ++ l1 :: l2 :: rest)) l
          = none) →
      UltimateAxivion.anyCounterGuard (pre ++ [l1]) = false →
      UltimateAxivion.counterGuard l1 (some l2) = true →
      ((chSplitOn ':' l2.toList).get? 1).bind pyIntChars = some n →
      UltimateAxivion.determine_result returncode 0 (pre ++ l1 :: l2 :: rest) false
        = .ok ("cafeCC errors: " ++ toString n) := by
  intro rc pre l1 l2 rest n h1 h2 h3 h4
  rw [determine_result_no_signal, lineScan_skip _ _ _ pre l1 (l2 :: rest) h1 h2]
  cases hseg : (chSplitOn ':' l2.toList).get? 1 with
  | none => rw [hseg] at h4; simp at h4
  | some seg =>
    rw [hseg, Option.some_bind] at h4
    simp only [UltimateAxivion.lineScan, List.head?]
    rw [if_pos h3, hseg]
    simp [h4]

/-- Witness for the amended claim C9: a counter pair at the head of the
output yields the counter diagnostic. -/
theorem c9_witness :
    UltimateAxivion.determine_result 0 0
      ["Number of compiler messages: 1", "Number of errors: 2"] false
      = .ok ("cafeCC errors: " ++ toString (2 : Int)) :=
  c9_amended 0 [] "Number of compiler messages: 1" "Number of errors: 2" [] 2
    (by simp) rfl rfl rfl
